import Mathlib

/-!
Verification of the yelp-python client (`yelp/client.py`).

The client is a thin synchronous wrapper over one HTTP API.  We embed it
shallowly:

* Numeric arguments (latitudes, longitudes, accuracies, ...) are embedded by
  their Python string representation, since the source only ever interpolates
  them into strings with `str`/`format`.
* Python `dict` query-parameter mappings become association lists
  (`Params`) with first-match lookup and overwrite-on-set, mirroring
  `dict.__setitem__` / `dict.update`.
* The injected collaborators that live outside `src/` (the authenticator's
  `sign_request`, the `ErrorHandler`, the `json` parser, the `urllib2`
  transport) are modelled from the spec as explicit parameters of the
  pipeline (`Env`).
* Exceptions become an `Outcome` sum: `raised` for a propagated exception,
  `returned` for a normal return.
-/

/-- Python `dict` of query parameters, embedded as an association list with
unique keys maintained by `Params.set`. -/
abbrev Params := List (String × String)

/-- First-match lookup, mirroring Python `dict.__getitem__` / `in`. -/
def Params.get : Params → String → Option String
  | [], _ => none
  | p :: rest, k => if p.1 = k then some p.2 else Params.get rest k

/-- Overwrite-or-append, mirroring Python `dict.__setitem__` (and
`dict.update` with a one-entry dict). -/
def Params.set : Params → String → String → Params
  | [], k, v => [(k, v)]
  | p :: rest, k, v => if p.1 = k then (k, v) :: rest else p :: Params.set rest k v

/-- `Client._format_current_lat_long`: `'{0},{1}'.format(lat, long)`. -/
def formatCurrentLatLong (lat long : String) : String :=
  lat ++ "," ++ long

/-- `Client._format_bounds`: `'{0},{1}|{2},{3}'.format(...)`. -/
def formatBounds (swLatitude swLongitude neLatitude neLongitude : String) : String :=
  swLatitude ++ "," ++ swLongitude ++ "|" ++ neLatitude ++ "," ++ neLongitude

/-- The `for field in (...): if field is not None: coord += ',' + str(field)
else: break` loop of `Client._format_coordinates`. -/
def appendCoordFields : String → List (Option String) → String
  | coord, [] => coord
  | coord, some f :: rest => appendCoordFields (coord ++ "," ++ f) rest
  | coord, none :: _ => coord

/-- `Client._format_coordinates`. -/
def formatCoordinates (latitude longitude : String)
    (accuracy altitude altitudeAccuracy : Option String) : String :=
  appendCoordFields (latitude ++ "," ++ longitude)
    [accuracy, altitude, altitudeAccuracy]

/-- The query-parameter mapping assembled by `Client.search` before the
request is made: `url_params.update({'location': location})`, then `cll` is
set only when both `current_lat` and `current_long` are not `None`. -/
def searchUrlParams (location : String) (currentLat currentLong : Option String)
    (urlParams : Params) : Params :=
  let p := urlParams.set "location" location
  match currentLat, currentLong with
  | some la, some lo => p.set "cll" (formatCurrentLatLong la lo)
  | _, _ => p

/-- The mapping assembled by `Client.search_by_bounding_box`:
`url_params['bounds'] = self._format_bounds(...)`. -/
def boundingBoxUrlParams (swLatitude swLongitude neLatitude neLongitude : String)
    (urlParams : Params) : Params :=
  urlParams.set "bounds"
    (formatBounds swLatitude swLongitude neLatitude neLongitude)

/-- The mapping assembled by `Client.search_by_coordinates`:
`url_params['ll'] = self._format_coordinates(...)`. -/
def coordinatesUrlParams (latitude longitude : String)
    (accuracy altitude altitudeAccuracy : Option String)
    (urlParams : Params) : Params :=
  urlParams.set "ll"
    (formatCoordinates latitude longitude accuracy altitude altitudeAccuracy)

/-- The mapping assembled by `Client.phone_search`:
`url_params['phone'] = phone`. -/
def phoneSearchUrlParams (phone : String) (urlParams : Params) : Params :=
  urlParams.set "phone" phone

/-- Modelled from the spec: the fixed API host (`yelp/config.py` is not under
`src/`; the spec only requires "GET requests to a fixed host"). -/
def API_HOST : String := "api.yelp.com"

/-- Modelled from the spec: business-lookup path template (`yelp/config.py`
is not under `src/`). -/
def BUSINESS_PATH : String := "/v2/business/"

/-- Modelled from the spec: search path template (`yelp/config.py` is not
under `src/`). -/
def SEARCH_PATH : String := "/v2/search/"

/-- Modelled from the spec: phone-search path template (`yelp/config.py` is
not under `src/`). -/
def PHONE_SEARCH_PATH : String := "/v2/phone_search/"

/-- Hexadecimal digit character (`0`-`9`, `A`-`F`). -/
def hexDigitChar (n : Nat) : Char :=
  if n < 10 then Char.ofNat (48 + n) else Char.ofNat (55 + n)

/-- Inverse of `hexDigitChar` on digits. -/
def hexVal (c : Char) : Nat :=
  if c.toNat < 58 then c.toNat - 48 else c.toNat - 55

/-- Modelled from the spec: percent-encoding of one character.  The spec
requires parameters to appear "percent-encoded" without fixing a scheme;
we use the uniform escape of the character's code point as six hex digits,
a valid (maximally escaping) percent-encoding. -/
def encodeChar (c : Char) : List Char :=
  ['%', hexDigitChar (c.toNat / 1048576 % 16), hexDigitChar (c.toNat / 65536 % 16),
   hexDigitChar (c.toNat / 4096 % 16), hexDigitChar (c.toNat / 256 % 16),
   hexDigitChar (c.toNat / 16 % 16), hexDigitChar (c.toNat % 16)]

/-- Percent-encoding of a character list. -/
def encodeList : List Char → List Char
  | [] => []
  | c :: rest => encodeChar c ++ encodeList rest

/-- Percent-encoding of a string. -/
def pctEncode (s : String) : String :=
  ⟨encodeList s.data⟩

/-- A query parameter as it appears in the signed URL: percent-encoded name
and percent-encoded value. -/
def encodePair (kv : String × String) : String × String :=
  (pctEncode kv.1, pctEncode kv.2)

/-- A signed URL: the base URL together with the query-parameter components
appended to it, kept structurally as the list of encoded name/value pairs. -/
structure SignedUrl where
  base : String
  query : List (String × String)
  deriving DecidableEq, Repr

/-- Modelled from the spec: the authenticator's `sign_request` (in
`yelp/oauth.py`, not under `src/`).  Per the spec it is an opaque signing
capability that appends the supplied parameters, percent-encoded, to the
URL; the signature mechanics are out of scope. -/
def signRequest (url : String) (urlParams : Params) : SignedUrl :=
  { base := url, query := urlParams.map encodePair }

/-- An `urllib2.HTTPError`: the HTTP status and response body of a
non-success response. -/
structure HttpFailure where
  status : Nat
  body : String
  deriving DecidableEq, Repr

/-- Outcome of one `urllib2.urlopen` round trip. -/
inductive HttpResult where
  | httpError (e : HttpFailure)
  | ok (body : String)
  deriving DecidableEq, Repr

/-- Modelled from the spec: the error taxonomy of the external error handler
(`yelp/errors.py`, not under `src/`): "invalid parameter, not found,
rate-limited, server error" and a catch-all. -/
inductive ApiError where
  | invalidParameter
  | notFound
  | rateLimited
  | serverError
  | other
  deriving DecidableEq, Repr

/-- An exception propagating out of a client call: either the error raised
by the external error handler, or a `json.loads` parse failure. -/
inductive YelpError where
  | api (e : ApiError)
  | jsonParse (msg : String)
  deriving DecidableEq, Repr

/-- Result of a Python call: a raised exception or a returned value. -/
inductive Outcome (α : Type) where
  | raised (e : YelpError)
  | returned (a : α)
  deriving DecidableEq, Repr

/-- Map over normal returns, leaving raised exceptions untouched (wrapping
a returned payload in a response object). -/
def Outcome.map {α β : Type} (f : α → β) : Outcome α → Outcome β
  | .raised e => .raised e
  | .returned a => .returned (f a)

/-- `yelp.obj.business_response.BusinessResponse`: a thin wrapper over the
parsed JSON document (not under `src/`; the spec describes it as a
read-only view over the parsed payload). -/
structure BusinessResponse (J : Type) where
  raw : J
  deriving DecidableEq, Repr

/-- `yelp.obj.search_response.SearchResponse`: a thin wrapper over the
parsed JSON document (not under `src/`; the spec describes it as a
read-only view over the parsed payload). -/
structure SearchResponse (J : Type) where
  raw : J
  deriving DecidableEq, Repr

/-- The external collaborators of a `Client`, as the spec describes them:
the error handler's status-to-error-kind selection, the `json.loads`
parser (abstract document type `J`), and the `urllib2` transport. -/
structure Env (J : Type) where
  handler : HttpFailure → ApiError
  parse : String → Except String J
  transport : SignedUrl → HttpResult

/-- `Client._make_connection`: on `urllib2.HTTPError` delegate to the error
handler, which raises; otherwise parse the body with `json.loads` (the
`finally` only closes the connection) and return the parsed document. -/
def makeConnection {J : Type} (handler : HttpFailure → ApiError)
    (parse : String → Except String J) : HttpResult → Outcome J
  | .httpError e => .raised (.api (handler e))
  | .ok body =>
    match parse body with
    | .error msg => .raised (.jsonParse msg)
    | .ok j => .returned j

/-- `Client._make_request`: build `https://{host}{quoted path}?`, have the
authenticator sign it with the query parameters, and open the connection.
Returns the single signed request issued together with the call outcome. -/
def makeRequest {J : Type} (env : Env J) (path : String) (urlParams : Params) :
    SignedUrl × Outcome J :=
  let url := signRequest ("https://" ++ API_HOST ++ pctEncode path ++ "?") urlParams
  (url, makeConnection env.handler env.parse (env.transport url))

/-- `Client.get_business`: one request to `BUSINESS_PATH + business_id`,
wrapping the result in a `BusinessResponse`.  The first component lists the
outbound requests the call issues. -/
def getBusiness {J : Type} (env : Env J) (businessId : String)
    (urlParams : Params) : List SignedUrl × Outcome (BusinessResponse J) :=
  let r := makeRequest env (BUSINESS_PATH ++ businessId) urlParams
  ([r.1], r.2.map BusinessResponse.mk)

/-- `Client.search`: one request to `SEARCH_PATH` with the mapping built by
`searchUrlParams`, wrapped in a `SearchResponse`. -/
def search {J : Type} (env : Env J) (location : String)
    (currentLat currentLong : Option String) (urlParams : Params) :
    List SignedUrl × Outcome (SearchResponse J) :=
  let r := makeRequest env SEARCH_PATH
    (searchUrlParams location currentLat currentLong urlParams)
  ([r.1], r.2.map SearchResponse.mk)

/-- `Client.search_by_bounding_box`: one request to `SEARCH_PATH` with the
`bounds` parameter set, wrapped in a `SearchResponse`. -/
def searchByBoundingBox {J : Type} (env : Env J)
    (swLatitude swLongitude neLatitude neLongitude : String)
    (urlParams : Params) : List SignedUrl × Outcome (SearchResponse J) :=
  let r := makeRequest env SEARCH_PATH
    (boundingBoxUrlParams swLatitude swLongitude neLatitude neLongitude urlParams)
  ([r.1], r.2.map SearchResponse.mk)

/-- `Client.search_by_coordinates`: one request to `SEARCH_PATH` with the
`ll` parameter set, wrapped in a `SearchResponse`. -/
def searchByCoordinates {J : Type} (env : Env J) (latitude longitude : String)
    (accuracy altitude altitudeAccuracy : Option String)
    (urlParams : Params) : List SignedUrl × Outcome (SearchResponse J) :=
  let r := makeRequest env SEARCH_PATH
    (coordinatesUrlParams latitude longitude accuracy altitude altitudeAccuracy urlParams)
  ([r.1], r.2.map SearchResponse.mk)

/-- `Client.phone_search`: one request to `PHONE_SEARCH_PATH` with the
`phone` parameter set, wrapped in a `SearchResponse`. -/
def phoneSearch {J : Type} (env : Env J) (phone : String)
    (urlParams : Params) : List SignedUrl × Outcome (SearchResponse J) :=
  let r := makeRequest env PHONE_SEARCH_PATH (phoneSearchUrlParams phone urlParams)
  ([r.1], r.2.map SearchResponse.mk)

/-- A concrete environment whose transport always reports HTTP 400 and whose
error handler selects the invalid-parameter error kind for status 400. -/
def envHttp400 : Env Nat where
  handler := fun f => if f.status = 400 then .invalidParameter else .serverError
  parse := fun _ => .ok 0
  transport := fun _ => .httpError ⟨400, "Bad Request"⟩

/-- A concrete environment whose transport succeeds with a malformed body
that the JSON parser rejects. -/
def envBadJson : Env Nat where
  handler := fun _ => .other
  parse := fun _ => .error "No JSON object could be decoded"
  transport := fun _ => .ok "not json"

/-- A concrete environment whose transport succeeds with a body the JSON
parser accepts (document embedded as `7`). -/
def envGoodJson : Env Nat where
  handler := fun _ => .other
  parse := fun b => if b = "[1]" then .ok 7 else .error "bad"
  transport := fun _ => .ok "[1]"

theorem Params.get_set_self (ps : Params) (k v : String) :
    (ps.set k v).get k = some v := by
  induction ps with
  | nil => simp [Params.set, Params.get]
  | cons p rest ih =>
    by_cases h : p.1 = k <;> simp [Params.set, Params.get, h, ih]

theorem Params.get_set_ne (ps : Params) (k k' v : String) (h : k' ≠ k) :
    (ps.set k' v).get k = ps.get k := by
  induction ps with
  | nil => simp [Params.set, Params.get, h]
  | cons p rest ih =>
    by_cases hp : p.1 = k'
    · simp [Params.set, Params.get, hp, h]
    · have h' : ¬k = k' := fun e => h e.symm
      by_cases hk : p.1 = k <;> simp [Params.set, Params.get, hp, hk, h', ih]

theorem hexVal_hexDigitChar : ∀ n < 16, hexVal (hexDigitChar n) = n := by decide

theorem hexDigitChar_inj_lt (a b : Nat) (ha : a < 16) (hb : b < 16)
    (h : hexDigitChar a = hexDigitChar b) : a = b := by
  have h1 := hexVal_hexDigitChar a ha
  have h2 := hexVal_hexDigitChar b hb
  rw [← h1, ← h2, h]

theorem char_toNat_lt_pow (c : Char) : c.toNat < 16777216 := by
  have h : c.val.toNat < 55296 ∨ (57344 ≤ c.val.toNat ∧ c.val.toNat < 1114112) := c.valid
  show c.val.toNat < 16777216
  omega

theorem encodeChar_inj : Function.Injective encodeChar := by
  intro c1 c2 h
  simp only [encodeChar, List.cons.injEq, and_true, true_and] at h
  obtain ⟨h5, h4, h3, h2, h1, h0⟩ := h
  have e5 := hexDigitChar_inj_lt _ _ (Nat.mod_lt _ (by norm_num)) (Nat.mod_lt _ (by norm_num)) h5
  have e4 := hexDigitChar_inj_lt _ _ (Nat.mod_lt _ (by norm_num)) (Nat.mod_lt _ (by norm_num)) h4
  have e3 := hexDigitChar_inj_lt _ _ (Nat.mod_lt _ (by norm_num)) (Nat.mod_lt _ (by norm_num)) h3
  have e2 := hexDigitChar_inj_lt _ _ (Nat.mod_lt _ (by norm_num)) (Nat.mod_lt _ (by norm_num)) h2
  have e1 := hexDigitChar_inj_lt _ _ (Nat.mod_lt _ (by norm_num)) (Nat.mod_lt _ (by norm_num)) h1
  have e0 := hexDigitChar_inj_lt _ _ (Nat.mod_lt _ (by norm_num)) (Nat.mod_lt _ (by norm_num)) h0
  have l1 := char_toNat_lt_pow c1
  have l2 := char_toNat_lt_pow c2
  have heq : c1.toNat = c2.toNat := by omega
  calc c1 = Char.ofNat c1.toNat := (Char.ofNat_toNat c1).symm
    _ = Char.ofNat c2.toNat := by rw [heq]
    _ = c2 := Char.ofNat_toNat c2

theorem encodeList_inj : ∀ l1 l2 : List Char, encodeList l1 = encodeList l2 → l1 = l2
  | [], [], _ => rfl
  | [], _ :: _, h => absurd h (by simp [encodeList, encodeChar])
  | _ :: _, [], h => absurd h (by simp [encodeList, encodeChar])
  | c :: t, c2 :: t2, h => by
    simp only [encodeList] at h
    obtain ⟨h1, h2⟩ := List.append_inj h (by simp [encodeChar])
    rw [encodeChar_inj h1, encodeList_inj t t2 h2]

theorem pctEncode_inj : Function.Injective pctEncode := by
  intro s1 s2 h
  have h2 : encodeList s1.data = encodeList s2.data := congrArg String.data h
  have h3 := encodeList_inj _ _ h2
  cases s1
  cases s2
  exact congrArg String.mk h3

theorem encodePair_inj : Function.Injective encodePair := by
  intro p1 p2 h
  cases p1
  cases p2
  simp only [encodePair, Prod.mk.injEq] at h ⊢
  exact ⟨pctEncode_inj h.1, pctEncode_inj h.2⟩

/-- C1: the coordinate string built for the `ll` parameter starts with
`latitude,longitude` and then appends the optional fields accuracy,
altitude, altitude-accuracy in order, comma-separated, stopping at the
first unset (`None`) field; fields after the first unset one are omitted
even when they are set. -/
theorem formatCoordinates_chain (lat long a b : String) (y z : Option String) :
    formatCoordinates lat long none y z = lat ++ "," ++ long ∧
    formatCoordinates lat long (some a) none z = lat ++ "," ++ long ++ "," ++ a ∧
    formatCoordinates lat long (some a) (some b) none
      = lat ++ "," ++ long ++ "," ++ a ++ "," ++ b ∧
    ∀ c : String, formatCoordinates lat long (some a) (some b) (some c)
      = lat ++ "," ++ long ++ "," ++ a ++ "," ++ b ++ "," ++ c :=
  ⟨rfl, rfl, rfl, fun _ => rfl⟩

/-- C3: `search_by_bounding_box` produces a `bounds` parameter that is
exactly the four values comma- and pipe-delimited as
`sw_latitude,sw_longitude|ne_latitude,ne_longitude`. -/
theorem boundingBox_bounds_exact (swLat swLong neLat neLong : String) (ps : Params) :
    formatBounds swLat swLong neLat neLong
      = swLat ++ "," ++ swLong ++ "|" ++ neLat ++ "," ++ neLong ∧
    (boundingBoxUrlParams swLat swLong neLat neLong ps).get "bounds"
      = some (swLat ++ "," ++ swLong ++ "|" ++ neLat ++ "," ++ neLong) :=
  ⟨rfl, Params.get_set_self ps "bounds" _⟩

/-- C5: `search_by_coordinates(37.8, -122.4)` with no optional fields set
produces a request whose `ll` parameter is the string `37.8,-122.4`
(floats embedded by their Python string representation). -/
theorem searchByCoordinates_example :
    formatCoordinates "37.8" "-122.4" none none none = "37.8,-122.4" ∧
    (coordinatesUrlParams "37.8" "-122.4" none none none []).get "ll"
      = some "37.8,-122.4" := by
  constructor
  · rfl
  · decide

/-- C9 counterexample: with exactly one of `current_lat`/`current_long`
provided but a caller-supplied `cll` entry already in `url_params`, the
request mapping does contain a `cll` parameter, contradicting the claim
that the request is sent without any `cll` parameter. -/
theorem search_cll_counterexample :
    (searchUrlParams "San Francisco" (some "37.8") none [("cll", "1,2")]).get "cll"
      ≠ none := by
  decide

/-- C9 amended: provided the caller's extra `url_params` mapping has no
`cll` entry of its own, the `cll` parameter is present in the request
mapping if and only if both `current_lat` and `current_long` are not
`None` (and then holds their comma-joined pair); if exactly one of the two
is provided it is silently ignored. -/
theorem search_cll_iff (location : String) (currentLat currentLong : Option String)
    (ps : Params) (h : ps.get "cll" = none) :
    (searchUrlParams location currentLat currentLong ps).get "cll"
      = match currentLat, currentLong with
        | some la, some lo => some (formatCurrentLatLong la lo)
        | _, _ => none := by
  have hn : ("location" : String) ≠ "cll" := by decide
  cases currentLat with
  | none =>
    cases currentLong with
    | none => simpa [searchUrlParams, Params.get_set_ne _ _ _ _ hn] using h
    | some lo => simpa [searchUrlParams, Params.get_set_ne _ _ _ _ hn] using h
  | some la =>
    cases currentLong with
    | none => simpa [searchUrlParams, Params.get_set_ne _ _ _ _ hn] using h
    | some lo => simp [searchUrlParams, Params.get_set_self]

/-- C9 witness: concrete instantiation of the amended claim. -/
theorem search_cll_iff_witness :
    (searchUrlParams "SF" (some "37.8") (some "-122.4") []).get "cll"
      = some "37.8,-122.4" := by
  have h := search_cll_iff "SF" (some "37.8") (some "-122.4") [] (by decide)
  simpa [formatCurrentLatLong] using h

/-- C10: for every endpoint method that formats a parameter from its named
arguments, a caller-supplied entry of the same key in the extra
`url_params` mapping is overwritten by the formatted value: the final
mapping always holds the formatted named-argument value for `location`,
`cll`, `bounds`, `ll` and `phone`. -/
theorem named_args_overwrite_url_params
    (location la lo swLat swLong neLat neLong lat long phone : String)
    (currentLat currentLong accuracy altitude altitudeAccuracy : Option String)
    (ps : Params) :
    (searchUrlParams location currentLat currentLong ps).get "location"
      = some location ∧
    (searchUrlParams location (some la) (some lo) ps).get "cll"
      = some (formatCurrentLatLong la lo) ∧
    (boundingBoxUrlParams swLat swLong neLat neLong ps).get "bounds"
      = some (formatBounds swLat swLong neLat neLong) ∧
    (coordinatesUrlParams lat long accuracy altitude altitudeAccuracy ps).get "ll"
      = some (formatCoordinates lat long accuracy altitude altitudeAccuracy) ∧
    (phoneSearchUrlParams phone ps).get "phone" = some phone := by
  have hn : ("cll" : String) ≠ "location" := by decide
  refine ⟨?_, ?_, ?_, ?_, ?_⟩
  · cases currentLat with
    | none => simp [searchUrlParams, Params.get_set_self]
    | some la' =>
      cases currentLong with
      | none => simp [searchUrlParams, Params.get_set_self]
      | some lo' =>
        simp [searchUrlParams, Params.get_set_ne _ _ _ _ hn, Params.get_set_self]
  · simp [searchUrlParams, Params.get_set_self]
  · exact Params.get_set_self ps "bounds" _
  · exact Params.get_set_self ps "ll" _
  · exact Params.get_set_self ps "phone" _

/-- C2: when the transport reports a non-success HTTP status, every public
endpoint call raises exactly the error the external error handler selects
for that response, and no response wrapper is constructed or returned:
the outcome is `raised`, never `returned`. -/
theorem endpoints_httpError_raise {J : Type} (env : Env J) (f : HttpFailure)
    (htr : ∀ u, env.transport u = .httpError f)
    (businessId location phone swLat swLong neLat neLong lat long : String)
    (currentLat currentLong accuracy altitude altitudeAccuracy : Option String)
    (ps1 ps2 ps3 ps4 ps5 : Params) :
    (getBusiness env businessId ps1).2 = .raised (.api (env.handler f)) ∧
    (search env location currentLat currentLong ps2).2
      = .raised (.api (env.handler f)) ∧
    (searchByBoundingBox env swLat swLong neLat neLong ps3).2
      = .raised (.api (env.handler f)) ∧
    (searchByCoordinates env lat long accuracy altitude altitudeAccuracy ps4).2
      = .raised (.api (env.handler f)) ∧
    (phoneSearch env phone ps5).2 = .raised (.api (env.handler f)) := by
  refine ⟨?_, ?_, ?_, ?_, ?_⟩ <;>
    simp [getBusiness, search, searchByBoundingBox, searchByCoordinates,
      phoneSearch, makeRequest, makeConnection, htr, Outcome.map]

/-- C2 witness: with a transport that always answers HTTP 400 and a handler
mapping status 400 to the invalid-parameter kind, every endpoint raises
that error. -/
theorem endpoints_httpError_raise_witness :
    (getBusiness envHttp400 "yelp-sf" []).2
      = .raised (.api .invalidParameter) ∧
    (search envHttp400 "SF" none none []).2
      = .raised (.api .invalidParameter) ∧
    (searchByBoundingBox envHttp400 "37.7" "-122.5" "37.9" "-122.3" []).2
      = .raised (.api .invalidParameter) ∧
    (searchByCoordinates envHttp400 "37.8" "-122.4" none none none []).2
      = .raised (.api .invalidParameter) ∧
    (phoneSearch envHttp400 "5551234567" []).2
      = .raised (.api .invalidParameter) :=
  endpoints_httpError_raise envHttp400 ⟨400, "Bad Request"⟩ (fun _ => rfl)
    "yelp-sf" "SF" "5551234567" "37.7" "-122.5" "37.9" "-122.3" "37.8" "-122.4"
    none none none none none [] [] [] [] []

/-- C6: when the transport succeeds but the body fails to parse as JSON,
every public endpoint call raises the parse error as its outcome, after
having issued exactly one request (no retry), and returns no wrapper or
partial result. -/
theorem endpoints_parse_failure {J : Type} (env : Env J) (body msg : String)
    (htr : ∀ u, env.transport u = .ok body) (hp : env.parse body = .error msg)
    (businessId location phone swLat swLong neLat neLong lat long : String)
    (currentLat currentLong accuracy altitude altitudeAccuracy : Option String)
    (ps1 ps2 ps3 ps4 ps5 : Params) :
    ((getBusiness env businessId ps1).2 = .raised (.jsonParse msg) ∧
      (getBusiness env businessId ps1).1.length = 1) ∧
    ((search env location currentLat currentLong ps2).2
        = .raised (.jsonParse msg) ∧
      (search env location currentLat currentLong ps2).1.length = 1) ∧
    ((searchByBoundingBox env swLat swLong neLat neLong ps3).2
        = .raised (.jsonParse msg) ∧
      (searchByBoundingBox env swLat swLong neLat neLong ps3).1.length = 1) ∧
    ((searchByCoordinates env lat long accuracy altitude altitudeAccuracy ps4).2
        = .raised (.jsonParse msg) ∧
      (searchByCoordinates env lat long accuracy altitude altitudeAccuracy
        ps4).1.length = 1) ∧
    ((phoneSearch env phone ps5).2 = .raised (.jsonParse msg) ∧
      (phoneSearch env phone ps5).1.length = 1) := by
  refine ⟨⟨?_, rfl⟩, ⟨?_, rfl⟩, ⟨?_, rfl⟩, ⟨?_, rfl⟩, ⟨?_, rfl⟩⟩ <;>
    simp [getBusiness, search, searchByBoundingBox, searchByCoordinates,
      phoneSearch, makeRequest, makeConnection, htr, hp, Outcome.map]

/-- C6 witness: with a transport that succeeds with a malformed body, every
endpoint raises the JSON parse error after one request. -/
theorem endpoints_parse_failure_witness :
    ((getBusiness envBadJson "yelp-sf" []).2
        = .raised (.jsonParse "No JSON object could be decoded") ∧
      (getBusiness envBadJson "yelp-sf" []).1.length = 1) ∧
    ((search envBadJson "SF" none none []).2
        = .raised (.jsonParse "No JSON object could be decoded") ∧
      (search envBadJson "SF" none none []).1.length = 1) ∧
    ((searchByBoundingBox envBadJson "37.7" "-122.5" "37.9" "-122.3" []).2
        = .raised (.jsonParse "No JSON object could be decoded") ∧
      (searchByBoundingBox envBadJson "37.7" "-122.5" "37.9" "-122.3"
        []).1.length = 1) ∧
    ((searchByCoordinates envBadJson "37.8" "-122.4" none none none []).2
        = .raised (.jsonParse "No JSON object could be decoded") ∧
      (searchByCoordinates envBadJson "37.8" "-122.4" none none none
        []).1.length = 1) ∧
    ((phoneSearch envBadJson "5551234567" []).2
        = .raised (.jsonParse "No JSON object could be decoded") ∧
      (phoneSearch envBadJson "5551234567" []).1.length = 1) :=
  endpoints_parse_failure envBadJson "not json" "No JSON object could be decoded"
    (fun _ => rfl) rfl
    "yelp-sf" "SF" "5551234567" "37.7" "-122.5" "37.9" "-122.3" "37.8" "-122.4"
    none none none none none [] [] [] [] []

/-- C7: every public endpoint call issues exactly one outbound request, and
the call's outcome is a function of the transport's answer to it (the
embedding is sequential: the outcome is produced only from the completed
response). -/
theorem endpoints_one_request {J : Type} (env : Env J)
    (businessId location phone swLat swLong neLat neLong lat long : String)
    (currentLat currentLong accuracy altitude altitudeAccuracy : Option String)
    (ps1 ps2 ps3 ps4 ps5 : Params) :
    (getBusiness env businessId ps1).1.length = 1 ∧
    (search env location currentLat currentLong ps2).1.length = 1 ∧
    (searchByBoundingBox env swLat swLong neLat neLong ps3).1.length = 1 ∧
    (searchByCoordinates env lat long accuracy altitude altitudeAccuracy
      ps4).1.length = 1 ∧
    (phoneSearch env phone ps5).1.length = 1 :=
  ⟨rfl, rfl, rfl, rfl, rfl⟩

/-- C8: no endpoint performs range validation or raises a local validation
error: for arbitrary (including malformed, out-of-range) argument values,
whenever transport and JSON parse succeed the call returns the wrapper, and
the formatted values are passed through unchanged. -/
theorem endpoints_no_local_validation {J : Type} (env : Env J) (body : String)
    (j : J) (htr : ∀ u, env.transport u = .ok body)
    (hp : env.parse body = .ok j)
    (businessId location phone swLat swLong neLat neLong lat long : String)
    (currentLat currentLong accuracy altitude altitudeAccuracy : Option String)
    (ps1 ps2 ps3 ps4 ps5 : Params) :
    (getBusiness env businessId ps1).2 = .returned ⟨j⟩ ∧
    (search env location currentLat currentLong ps2).2 = .returned ⟨j⟩ ∧
    (searchByBoundingBox env swLat swLong neLat neLong ps3).2
      = .returned ⟨j⟩ ∧
    (searchByCoordinates env lat long accuracy altitude altitudeAccuracy
      ps4).2 = .returned ⟨j⟩ ∧
    (phoneSearch env phone ps5).2 = .returned ⟨j⟩ ∧
    (boundingBoxUrlParams swLat swLong neLat neLong ps3).get "bounds"
      = some (swLat ++ "," ++ swLong ++ "|" ++ neLat ++ "," ++ neLong) := by
  refine ⟨?_, ?_, ?_, ?_, ?_, Params.get_set_self ps3 "bounds" _⟩ <;>
    simp [getBusiness, search, searchByBoundingBox, searchByCoordinates,
      phoneSearch, makeRequest, makeConnection, htr, hp, Outcome.map]

/-- C8 witness: out-of-range coordinate and bounding-box values are passed
through unchanged and the calls still return wrappers. -/
theorem endpoints_no_local_validation_witness :
    (getBusiness envGoodJson "" []).2 = .returned ⟨7⟩ ∧
    (search envGoodJson "" none none []).2 = .returned ⟨7⟩ ∧
    (searchByBoundingBox envGoodJson "999999" "-999999" "1e308" "nan" []).2
      = .returned ⟨7⟩ ∧
    (searchByCoordinates envGoodJson "91.0" "-181.0" none none none []).2
      = .returned ⟨7⟩ ∧
    (phoneSearch envGoodJson "not-a-phone" []).2 = .returned ⟨7⟩ ∧
    (boundingBoxUrlParams "999999" "-999999" "1e308" "nan" []).get "bounds"
      = some "999999,-999999|1e308,nan" :=
  endpoints_no_local_validation envGoodJson "[1]" 7 (fun _ => rfl) rfl
    "" "" "not-a-phone" "999999" "-999999" "1e308" "nan" "91.0" "-181.0"
    none none none none none [] [] [] [] []

theorem count_map_encodePair (l : List (String × String)) (x : String × String) :
    (l.map encodePair).count (encodePair x) = l.count x := by
  induction l with
  | nil => rfl
  | cons p rest ih =>
    by_cases h : p = x
    · simp [h, List.count_cons, ih]
    · have h2 : ¬encodePair p = encodePair x := fun e => h (encodePair_inj e)
      simp [List.count_cons, h, h2, ih]

theorem count_eq_one_of_nodup_mem (l : List (String × String))
    (x : String × String) (hnd : l.Nodup) (h : x ∈ l) : l.count x = 1 := by
  induction l with
  | nil => cases h
  | cons p rest ih =>
    rcases List.mem_cons.mp h with h1 | h1
    · subst h1
      have hnotin : x ∉ rest := (List.nodup_cons.mp hnd).1
      have h0 : rest.count x = 0 := by simp [List.count_eq_zero, hnotin]
      simp [List.count_cons, h0]
    · have hne : p ≠ x := by
        rintro rfl
        exact (List.nodup_cons.mp hnd).1 h1
      have h2 := ih (List.nodup_cons.mp hnd).2 h1
      simp [List.count_cons, h2, hne]

/-- C4: under a parameter mapping with unique keys (a Python `dict`), the
signed URL produced by the request builder contains every supplied
parameter, percent-encoded, exactly once among its query components. -/
theorem signRequest_params_once (url : String) (ps : Params) (k v : String)
    (hnd : (ps.map Prod.fst).Nodup) (hmem : (k, v) ∈ ps) :
    ((signRequest url ps).query).count (encodePair (k, v)) = 1 := by
  have h1 : (signRequest url ps).query = ps.map encodePair := rfl
  rw [h1, count_map_encodePair ps (k, v)]
  exact count_eq_one_of_nodup_mem ps (k, v) (List.Nodup.of_map _ hnd) hmem

/-- C4 witness: a concrete two-parameter mapping, each parameter appearing
exactly once in the signed URL's query components. -/
theorem signRequest_params_once_witness :
    ((signRequest "https://api.yelp.com/v2/search/?"
        [("location", "SF"), ("term", "food")]).query).count
      (encodePair ("term", "food")) = 1 :=
  signRequest_params_once "https://api.yelp.com/v2/search/?"
    [("location", "SF"), ("term", "food")] "term" "food"
    (by decide) (by decide)
